import Mathlib

/-!
Shallow embedding of the Solana-Security-Patterns site: the pattern dataset
and lookup (src/patterns.ts), the detail-page previous/next navigation and
attack-scenario rendering (src/HomePage.tsx, PatternPage component), the
severity styling maps (src/PatternCard.tsx and PatternPage), the code display
widget's copy action (the CodeBlock component), and the home-page stats
(src/HomePage.tsx, HomePage component).

JavaScript string builtins used by the code (split, trim, startsWith,
replace) are modelled structurally over the string's character list, with
ECMAScript semantics restricted to the characters that actually occur in
this repository's data (ASCII plus a few BMP symbols; the only whitespace
present is the space and the newline).
-/

/-- ECMAScript whitespace for String.prototype.trim: the ASCII whitespace
characters plus NBSP and the BOM. The dataset and every example in this
development contain only the space and the newline, where this coincides
with every reading of the JS spec. -/
def jsWhitespaceChar (c : Char) : Bool :=
  c = ' ' || c = '\t' || c = '\n' || c = '\r' || c = '\x0b' || c = '\x0c' ||
  c = '\u00a0' || c = '\ufeff'

/-- Helper for jsSplitLines: split a character list at every newline,
keeping empty pieces, as JS split does. -/
def splitLinesAux : List Char → List Char → List (List Char)
  | [], acc => [acc.reverse]
  | c :: rest, acc =>
    if c = '\n' then acc.reverse :: splitLinesAux rest []
    else splitLinesAux rest (c :: acc)

/-- JS s.split(String.fromCharCode(10)): every line of s, empty lines kept. -/
def jsSplitLines (s : String) : List String :=
  (splitLinesAux s.data []).map String.mk

/-- JS s.trim(): drop leading and trailing whitespace. -/
def jsTrim (s : String) : String :=
  String.mk (((s.data.dropWhile jsWhitespaceChar).reverse.dropWhile
    jsWhitespaceChar).reverse)

/-- JS s.startsWith(pre). -/
def jsStartsWith (s pre : String) : Bool :=
  pre.data.isPrefixOf s.data

/-- Helper for jsStripStars: remove every non-overlapping left-to-right
occurrence of two consecutive asterisks. -/
def stripStars : List Char → List Char
  | [] => []
  | '*' :: '*' :: rest => stripStars rest
  | c :: rest => c :: stripStars rest

/-- JS s.replace(two-star regex with the global flag, empty string): strip
every occurrence of the two-asterisk marker. -/
def jsStripStars (s : String) : String :=
  String.mk (stripStars s.data)

/-- The severity union type of src/patterns.ts. -/
inductive Severity where
  | critical
  | high
  | medium
deriving DecidableEq, Repr

/-- One entry of the references field of src/patterns.ts. -/
structure Reference where
  title : String
  url : String
deriving DecidableEq, Repr

/-- The SecurityPattern interface of src/patterns.ts. -/
structure SecurityPattern where
  id : String
  title : String
  description : String
  severity : Severity
  category : String
  explanation : String
  vulnerableCode : String
  secureCode : String
  vulnerableExplanation : String
  secureExplanation : String
  attackScenario : String
  prevention : List String
  references : List Reference
deriving DecidableEq, Repr

/-- The hand-authored dataset of src/patterns.ts (securityPatterns), every
field transcribed verbatim; braces, apostrophes and backticks of the prose
and code samples are written with character escapes. -/
def securityPatterns : List SecurityPattern := [
 {
  id := "missing-signer-check",
  title := "Missing Signer Verification",
  description := "Failing to verify that critical accounts have signed the transaction, allowing unauthorized actions.",
  severity := Severity.critical,
  category := "Account Validation",
  explanation := "\nOne of the most fundamental security checks in Solana programs is verifying that accounts have actually signed the transaction. Without this check, anyone can pass any public key as an \"authority\" account and perform unauthorized actions.\n\nIn Solana\x27s account model, each account in a transaction has an \x60is_signer\x60 flag that indicates whether the account\x27s private key was used to sign the transaction. Programs MUST check this flag for any account that should have authority over an action.\n\nThis vulnerability is particularly dangerous because:\n1. It allows complete bypass of access control\n2. Attackers can drain funds, modify state, or take ownership\n3. The exploit is trivial to execute once discovered\n    ",
  vulnerableCode := "use anchor_lang::prelude::*;\n\ndeclare_id!(\"Vuln111111111111111111111111111111111111111\");\n\n#[program]\npub mod vulnerable_signer \x7b\n    use super::*;\n\n    // \u274c VULNERABLE: No signer verification!\n    // Anyone can call this and pass ANY pubkey as authority\n    pub fn withdraw(ctx: Context<Withdraw>, amount: u64) -> Result<()> \x7b\n        // This will succeed even if \x27authority\x27 didn\x27t sign!\n        let vault = &mut ctx.accounts.vault;\n        \n        // Attacker can pass victim\x27s pubkey as authority\n        // and drain their vault without their signature\n        vault.balance = vault.balance.checked_sub(amount)\n            .ok_or(ErrorCode::InsufficientFunds)?;\n        \n        // Transfer funds to attacker...\n        msg!(\"Withdrew \x7b\x7d lamports\", amount);\n        Ok(())\n    \x7d\n\x7d\n\n#[derive(Accounts)]\npub struct Withdraw<\x27info> \x7b\n    #[account(mut)]\n    pub vault: Account<\x27info, Vault>,\n    \n    // \u274c VULNERABLE: No Signer constraint!\n    // This account is NOT required to sign the transaction\n    /// CHECK: This should be the vault authority but isn\x27t verified\n    pub authority: AccountInfo<\x27info>,\n\x7d\n\n#[account]\npub struct Vault \x7b\n    pub authority: Pubkey,\n    pub balance: u64,\n\x7d\n\n#[error_code]\npub enum ErrorCode \x7b\n    #[msg(\"Insufficient funds in vault\")]\n    InsufficientFunds,\n\x7d",
  secureCode := "use anchor_lang::prelude::*;\n\ndeclare_id!(\"Secure1111111111111111111111111111111111111\");\n\n#[program]\npub mod secure_signer \x7b\n    use super::*;\n\n    // \u2705 SECURE: Proper signer verification\n    pub fn withdraw(ctx: Context<Withdraw>, amount: u64) -> Result<()> \x7b\n        let vault = &mut ctx.accounts.vault;\n        \n        // Additional check: verify authority matches vault\x27s stored authority\n        // This is defense-in-depth alongside the Signer constraint\n        require_keys_eq!(\n            ctx.accounts.authority.key(),\n            vault.authority,\n            ErrorCode::UnauthorizedAuthority\n        );\n        \n        vault.balance = vault.balance.checked_sub(amount)\n            .ok_or(ErrorCode::InsufficientFunds)?;\n        \n        msg!(\"Withdrew \x7b\x7d lamports\", amount);\n        Ok(())\n    \x7d\n\x7d\n\n#[derive(Accounts)]\npub struct Withdraw<\x27info> \x7b\n    #[account(mut)]\n    pub vault: Account<\x27info, Vault>,\n    \n    // \u2705 SECURE: Signer constraint ensures this account signed the tx\n    // The transaction will fail if authority didn\x27t sign\n    #[account(\n        constraint = authority.key() == vault.authority @ ErrorCode::UnauthorizedAuthority\n    )]\n    pub authority: Signer<\x27info>,\n\x7d\n\n#[account]\npub struct Vault \x7b\n    pub authority: Pubkey,\n    pub balance: u64,\n\x7d\n\n#[error_code]\npub enum ErrorCode \x7b\n    #[msg(\"Insufficient funds in vault\")]\n    InsufficientFunds,\n    #[msg(\"Unauthorized authority for this vault\")]\n    UnauthorizedAuthority,\n\x7d",
  vulnerableExplanation := "\n**What\x27s Wrong:**\n- The \x60authority\x60 account uses \x60AccountInfo<\x27info>\x60 with no constraints\n- There\x27s no \x60Signer\x60 type or \x60is_signer\x60 check\n- Anyone can pass any public key as the authority\n- The program blindly trusts the passed account\n\n**Attack Vector:**\n1. Attacker finds a vault with funds\n2. Attacker creates a transaction passing the victim\x27s pubkey as authority\n3. Since no signature is required, the transaction succeeds\n4. Attacker drains the vault\n    ",
  secureExplanation := "\n**Security Measures:**\n1. **Signer<\x27info> type**: Anchor automatically verifies the account signed the transaction\n2. **Constraint check**: Verifies the signer matches the vault\x27s stored authority\n3. **Custom error**: Provides clear feedback on authorization failures\n\n**Why This Works:**\n- Solana runtime enforces that Signer accounts must have signed\n- The constraint provides defense-in-depth\n- Even if an attacker knows the authority pubkey, they can\x27t sign without the private key\n    ",
  attackScenario := "\n**Real-World Attack Scenario:**\n\n1. A DeFi protocol has a vault system where users deposit funds\n2. The withdraw function doesn\x27t verify signers\n3. Attacker scans the blockchain for vaults with significant balances\n4. For each vault, attacker:\n   - Reads the vault\x27s authority pubkey from account data\n   - Constructs a withdraw transaction with that pubkey\n   - Signs only with their own keypair (not the authority)\n   - Submits the transaction\n5. All vaults are drained in minutes\n\n**Historical Example:** This exact vulnerability has led to millions in losses across various Solana protocols.\n    ",
  prevention := ["Always use Signer<\x27info> for accounts that must authorize actions",
    "Add constraint checks to verify the signer matches stored authority",
    "Use Anchor\x27s has_one constraint for automatic authority matching",
    "Implement defense-in-depth with multiple validation layers",
    "Audit all instruction handlers for missing signer checks"],
  references := [{ title := "Anchor Signer Documentation", url := "https://www.anchor-lang.com/docs/account-types#signer" },
    { title := "Solana Account Model", url := "https://solana.com/docs/core/accounts" }] },
 {
  id := "missing-owner-check",
  title := "Missing Account Owner Verification",
  description := "Not verifying that an account is owned by the expected program, allowing fake account injection.",
  severity := Severity.critical,
  category := "Account Validation",
  explanation := "\nEvery account on Solana has an \"owner\" field that indicates which program has write access to it. When your program reads data from an account, you MUST verify the account is owned by the expected program.\n\nWithout owner verification, an attacker can:\n1. Create a fake account with malicious data\n2. Set themselves as the owner\n3. Pass this fake account to your program\n4. Your program reads the fake data as if it were legitimate\n\nThis is especially dangerous when reading token accounts, PDAs, or any account your program didn\x27t create in the same transaction.\n    ",
  vulnerableCode := "use anchor_lang::prelude::*;\nuse anchor_spl::token::TokenAccount;\n\ndeclare_id!(\"Vuln222222222222222222222222222222222222222\");\n\n#[program]\npub mod vulnerable_owner \x7b\n    use super::*;\n\n    // \u274c VULNERABLE: No owner verification on price feed\n    pub fn swap(ctx: Context<Swap>, amount_in: u64) -> Result<()> \x7b\n        // Reading price from unverified account!\n        // Attacker can pass a fake account with manipulated price\n        let price_data = ctx.accounts.price_feed.try_borrow_data()?;\n        let price = u64::from_le_bytes(\n            price_data[0..8].try_into().unwrap()\n        );\n        \n        // Calculate output based on potentially fake price\n        let amount_out = amount_in\n            .checked_mul(price)\n            .ok_or(ErrorCode::MathOverflow)?\n            .checked_div(1_000_000)\n            .ok_or(ErrorCode::MathOverflow)?;\n        \n        msg!(\"Swapping \x7b\x7d for \x7b\x7d at price \x7b\x7d\", amount_in, amount_out, price);\n        \n        // Transfer would happen here...\n        // Attacker gets way more tokens than they should!\n        \n        Ok(())\n    \x7d\n\x7d\n\n#[derive(Accounts)]\npub struct Swap<\x27info> \x7b\n    #[account(mut)]\n    pub user: Signer<\x27info>,\n    \n    #[account(mut)]\n    pub user_token_in: Account<\x27info, TokenAccount>,\n    \n    #[account(mut)]\n    pub user_token_out: Account<\x27info, TokenAccount>,\n    \n    // \u274c VULNERABLE: No owner check!\n    // Anyone can create an account with fake price data\n    /// CHECK: Should be verified but isn\x27t\n    pub price_feed: AccountInfo<\x27info>,\n\x7d\n\n#[error_code]\npub enum ErrorCode \x7b\n    #[msg(\"Math overflow\")]\n    MathOverflow,\n\x7d",
  secureCode := "use anchor_lang::prelude::*;\nuse anchor_spl::token::TokenAccount;\n\ndeclare_id!(\"Secure2222222222222222222222222222222222222\");\n\n// Define the expected oracle program ID\npub const ORACLE_PROGRAM_ID: Pubkey = pubkey!(\"Oracle11111111111111111111111111111111111\");\n\n#[program]\npub mod secure_owner \x7b\n    use super::*;\n\n    // \u2705 SECURE: Proper owner verification\n    pub fn swap(ctx: Context<Swap>, amount_in: u64) -> Result<()> \x7b\n        // Now we can trust the price data because we verified the owner\n        let price_data = ctx.accounts.price_feed.try_borrow_data()?;\n        let price = u64::from_le_bytes(\n            price_data[0..8].try_into().unwrap()\n        );\n        \n        // Additional validation: check price is within reasonable bounds\n        require!(\n            price > 0 && price < 1_000_000_000_000,\n            ErrorCode::InvalidPrice\n        );\n        \n        let amount_out = amount_in\n            .checked_mul(price)\n            .ok_or(ErrorCode::MathOverflow)?\n            .checked_div(1_000_000)\n            .ok_or(ErrorCode::MathOverflow)?;\n        \n        msg!(\"Swapping \x7b\x7d for \x7b\x7d at verified price \x7b\x7d\", amount_in, amount_out, price);\n        \n        Ok(())\n    \x7d\n\x7d\n\n#[derive(Accounts)]\npub struct Swap<\x27info> \x7b\n    #[account(mut)]\n    pub user: Signer<\x27info>,\n    \n    #[account(mut)]\n    pub user_token_in: Account<\x27info, TokenAccount>,\n    \n    #[account(mut)]\n    pub user_token_out: Account<\x27info, TokenAccount>,\n    \n    // \u2705 SECURE: Owner constraint verifies the account is owned by oracle\n    // Attacker cannot create fake accounts owned by the oracle program\n    #[account(\n        owner = ORACLE_PROGRAM_ID @ ErrorCode::InvalidPriceFeedOwner\n    )]\n    /// CHECK: Owner is verified to be the oracle program\n    pub price_feed: AccountInfo<\x27info>,\n    \n    // Alternative: Use a typed account if you control the oracle\n    // #[account(\n    //     has_one = oracle_authority,\n    //     owner = crate::ID\n    // )]\n    // pub price_feed: Account<\x27info, PriceFeed>,\n\x7d\n\n#[account]\npub struct PriceFeed \x7b\n    pub oracle_authority: Pubkey,\n    pub price: u64,\n    pub last_update: i64,\n    pub confidence: u64,\n\x7d\n\n#[error_code]\npub enum ErrorCode \x7b\n    #[msg(\"Math overflow\")]\n    MathOverflow,\n    #[msg(\"Invalid price feed owner\")]\n    InvalidPriceFeedOwner,\n    #[msg(\"Price is invalid or out of bounds\")]\n    InvalidPrice,\n\x7d",
  vulnerableExplanation := "\n**What\x27s Wrong:**\n- The \x60price_feed\x60 account has no owner verification\n- Uses raw \x60AccountInfo\x60 without constraints\n- Attacker can create their own account with fake price data\n- Program reads and trusts this manipulated data\n\n**Attack Vector:**\n1. Attacker creates an account they own\n2. Writes fake price data (e.g., 1000x the real price)\n3. Passes this fake account as the price feed\n4. Program calculates swap based on fake price\n5. Attacker receives 1000x more tokens than they should\n    ",
  secureExplanation := "\n**Security Measures:**\n1. **Owner constraint**: Verifies account is owned by the oracle program\n2. **Price bounds check**: Additional validation for reasonable values\n3. **Custom error**: Clear feedback on validation failures\n\n**Why This Works:**\n- Only the oracle program can create accounts it owns\n- Attacker cannot forge the owner field\n- Even if attacker finds a bug in the oracle, bounds checking provides defense\n    ",
  attackScenario := "\n**Real-World Attack Scenario:**\n\n1. A DEX uses an oracle for price feeds\n2. The swap function doesn\x27t verify the price feed owner\n3. Attacker:\n   - Creates a new account with their keypair\n   - Writes data: price = 1,000,000 (1000x real price)\n   - Calls swap with 1 token in, fake price feed\n   - Receives 1000 tokens out instead of 1\n4. Attacker repeats until pool is drained\n\n**Impact:** This vulnerability has caused millions in losses in DeFi protocols.\n    ",
  prevention := ["Always verify account owners using owner constraint",
    "Use typed Account<\x27info, T> when possible for automatic owner checks",
    "Validate data bounds even after owner verification",
    "Use PDAs derived from your program for trusted accounts",
    "Document expected owners in account structs"],
  references := [{ title := "Anchor Owner Constraint", url := "https://www.anchor-lang.com/docs/account-constraints" },
    { title := "Solana Account Ownership", url := "https://solana.com/docs/core/accounts#ownership" }] },
 {
  id := "integer-overflow",
  title := "Integer Overflow/Underflow",
  description := "Arithmetic operations that can wrap around, leading to unexpected values and fund theft.",
  severity := Severity.critical,
  category := "Arithmetic Safety",
  explanation := "\nInteger overflow occurs when an arithmetic operation produces a value larger than the maximum the type can hold. In Rust, this behavior depends on the build mode:\n\n- **Debug mode**: Panics on overflow (safe but crashes)\n- **Release mode**: Wraps around silently (DANGEROUS!)\n\nSince Solana programs run in release mode, unchecked arithmetic can lead to:\n- Balances wrapping from max to 0 or vice versa\n- Negative amounts becoming huge positive numbers\n- Reward calculations producing unexpected results\n\nThis is one of the most common vulnerabilities in smart contracts across all blockchains.\n    ",
  vulnerableCode := "use anchor_lang::prelude::*;\n\ndeclare_id!(\"Vuln333333333333333333333333333333333333333\");\n\n#[program]\npub mod vulnerable_overflow \x7b\n    use super::*;\n\n    // \u274c VULNERABLE: Unchecked arithmetic operations\n    pub fn deposit(ctx: Context<Deposit>, amount: u64) -> Result<()> \x7b\n        let vault = &mut ctx.accounts.vault;\n        \n        // \u274c VULNERABLE: Can overflow!\n        // If vault.balance = u64::MAX - 100 and amount = 200\n        // Result wraps to 99 instead of failing!\n        vault.balance = vault.balance + amount;\n        \n        msg!(\"Deposited \x7b\x7d. New balance: \x7b\x7d\", amount, vault.balance);\n        Ok(())\n    \x7d\n\n    // \u274c VULNERABLE: Unchecked subtraction\n    pub fn withdraw(ctx: Context<Withdraw>, amount: u64) -> Result<()> \x7b\n        let vault = &mut ctx.accounts.vault;\n        \n        // \u274c VULNERABLE: Can underflow!\n        // If vault.balance = 100 and amount = 200\n        // Result wraps to u64::MAX - 99 (massive number!)\n        vault.balance = vault.balance - amount;\n        \n        msg!(\"Withdrew \x7b\x7d. New balance: \x7b\x7d\", amount, vault.balance);\n        Ok(())\n    \x7d\n\n    // \u274c VULNERABLE: Unchecked multiplication in rewards\n    pub fn calculate_rewards(ctx: Context<CalculateRewards>) -> Result<()> \x7b\n        let staking = &mut ctx.accounts.staking;\n        let clock = Clock::get()?;\n        \n        let time_staked = clock.unix_timestamp - staking.start_time;\n        \n        // \u274c VULNERABLE: Multiplication can overflow!\n        // Large stake * high rate * long time = overflow\n        let rewards = staking.amount * staking.rate * time_staked as u64;\n        \n        staking.pending_rewards = rewards;\n        msg!(\"Calculated rewards: \x7b\x7d\", rewards);\n        Ok(())\n    \x7d\n\x7d\n\n#[derive(Accounts)]\npub struct Deposit<\x27info> \x7b\n    #[account(mut)]\n    pub vault: Account<\x27info, Vault>,\n    pub depositor: Signer<\x27info>,\n\x7d\n\n#[derive(Accounts)]\npub struct Withdraw<\x27info> \x7b\n    #[account(mut)]\n    pub vault: Account<\x27info, Vault>,\n    pub authority: Signer<\x27info>,\n\x7d\n\n#[derive(Accounts)]\npub struct CalculateRewards<\x27info> \x7b\n    #[account(mut)]\n    pub staking: Account<\x27info, StakingAccount>,\n\x7d\n\n#[account]\npub struct Vault \x7b\n    pub authority: Pubkey,\n    pub balance: u64,\n\x7d\n\n#[account]\npub struct StakingAccount \x7b\n    pub owner: Pubkey,\n    pub amount: u64,\n    pub rate: u64,\n    pub start_time: i64,\n    pub pending_rewards: u64,\n\x7d",
  secureCode := "use anchor_lang::prelude::*;\n\ndeclare_id!(\"Secure3333333333333333333333333333333333333\");\n\n#[program]\npub mod secure_overflow \x7b\n    use super::*;\n\n    // \u2705 SECURE: Using checked arithmetic\n    pub fn deposit(ctx: Context<Deposit>, amount: u64) -> Result<()> \x7b\n        let vault = &mut ctx.accounts.vault;\n        \n        // \u2705 SECURE: checked_add returns None on overflow\n        vault.balance = vault.balance\n            .checked_add(amount)\n            .ok_or(ErrorCode::ArithmeticOverflow)?;\n        \n        msg!(\"Deposited \x7b\x7d. New balance: \x7b\x7d\", amount, vault.balance);\n        Ok(())\n    \x7d\n\n    // \u2705 SECURE: Using checked subtraction with balance validation\n    pub fn withdraw(ctx: Context<Withdraw>, amount: u64) -> Result<()> \x7b\n        let vault = &mut ctx.accounts.vault;\n        \n        // \u2705 SECURE: Explicit balance check first\n        require!(\n            vault.balance >= amount,\n            ErrorCode::InsufficientBalance\n        );\n        \n        // \u2705 SECURE: checked_sub for defense in depth\n        vault.balance = vault.balance\n            .checked_sub(amount)\n            .ok_or(ErrorCode::ArithmeticUnderflow)?;\n        \n        msg!(\"Withdrew \x7b\x7d. New balance: \x7b\x7d\", amount, vault.balance);\n        Ok(())\n    \x7d\n\n    // \u2705 SECURE: Safe reward calculation with overflow protection\n    pub fn calculate_rewards(ctx: Context<CalculateRewards>) -> Result<()> \x7b\n        let staking = &mut ctx.accounts.staking;\n        let clock = Clock::get()?;\n        \n        // \u2705 SECURE: Validate time hasn\x27t gone backwards\n        require!(\n            clock.unix_timestamp >= staking.start_time,\n            ErrorCode::InvalidTimestamp\n        );\n        \n        let time_staked = (clock.unix_timestamp - staking.start_time) as u64;\n        \n        // \u2705 SECURE: Chain checked operations\n        // Using u128 intermediate to prevent overflow, then check bounds\n        let rewards_u128 = (staking.amount as u128)\n            .checked_mul(staking.rate as u128)\n            .ok_or(ErrorCode::ArithmeticOverflow)?\n            .checked_mul(time_staked as u128)\n            .ok_or(ErrorCode::ArithmeticOverflow)?\n            .checked_div(1_000_000) // Scale factor\n            .ok_or(ErrorCode::ArithmeticOverflow)?;\n        \n        // \u2705 SECURE: Verify result fits in u64\n        require!(\n            rewards_u128 <= u64::MAX as u128,\n            ErrorCode::RewardsTooLarge\n        );\n        \n        staking.pending_rewards = rewards_u128 as u64;\n        msg!(\"Calculated rewards: \x7b\x7d\", staking.pending_rewards);\n        Ok(())\n    \x7d\n\x7d\n\n#[derive(Accounts)]\npub struct Deposit<\x27info> \x7b\n    #[account(mut)]\n    pub vault: Account<\x27info, Vault>,\n    pub depositor: Signer<\x27info>,\n\x7d\n\n#[derive(Accounts)]\npub struct Withdraw<\x27info> \x7b\n    #[account(\n        mut,\n        has_one = authority @ ErrorCode::UnauthorizedWithdraw\n    )]\n    pub vault: Account<\x27info, Vault>,\n    pub authority: Signer<\x27info>,\n\x7d\n\n#[derive(Accounts)]\npub struct CalculateRewards<\x27info> \x7b\n    #[account(mut)]\n    pub staking: Account<\x27info, StakingAccount>,\n\x7d\n\n#[account]\npub struct Vault \x7b\n    pub authority: Pubkey,\n    pub balance: u64,\n\x7d\n\n#[account]\npub struct StakingAccount \x7b\n    pub owner: Pubkey,\n    pub amount: u64,\n    pub rate: u64,\n    pub start_time: i64,\n    pub pending_rewards: u64,\n\x7d\n\n#[error_code]\npub enum ErrorCode \x7b\n    #[msg(\"Arithmetic overflow occurred\")]\n    ArithmeticOverflow,\n    #[msg(\"Arithmetic underflow occurred\")]\n    ArithmeticUnderflow,\n    #[msg(\"Insufficient balance for withdrawal\")]\n    InsufficientBalance,\n    #[msg(\"Unauthorized withdrawal attempt\")]\n    UnauthorizedWithdraw,\n    #[msg(\"Invalid timestamp detected\")]\n    InvalidTimestamp,\n    #[msg(\"Calculated rewards exceed maximum\")]\n    RewardsTooLarge,\n\x7d",
  vulnerableExplanation := "\n**What\x27s Wrong:**\n- Uses standard arithmetic operators (+, -, *)\n- In release mode, these wrap on overflow/underflow\n- No validation of operation results\n- No bounds checking before operations\n\n**Attack Vectors:**\n\n1. **Underflow Attack:**\n   - Vault has 100 tokens\n   - Attacker withdraws 200 tokens\n   - Balance becomes u64::MAX - 99 \u2248 18 quintillion!\n   \n2. **Overflow Attack:**\n   - Stake large amount with high rate\n   - Wait for time_staked to be large\n   - Multiplication overflows to small number\n   - Or wraps to give attacker huge rewards\n    ",
  secureExplanation := "\n**Security Measures:**\n\n1. **checked_add/checked_sub/checked_mul**: Return None on overflow\n2. **Explicit bounds checking**: Validate before operations\n3. **u128 intermediate**: Use larger type for calculations\n4. **Result validation**: Ensure final value fits in target type\n\n**Best Practices:**\n- Always use checked arithmetic in financial code\n- Validate inputs before operations\n- Use larger intermediate types for complex calculations\n- Add explicit bounds checks as defense in depth\n    ",
  attackScenario := "\n**Real-World Attack Scenario:**\n\n1. A staking protocol calculates rewards: amount * rate * time\n2. Attacker stakes maximum u64 amount\n3. Waits for time to accumulate\n4. Calls calculate_rewards:\n   - u64::MAX * rate * time overflows\n   - Result wraps to a small or zero value\n   - OR wraps to give attacker massive rewards\n5. Attacker claims inflated rewards or griefs other users\n\n**Historical Impact:** Integer overflow bugs have caused losses exceeding $100M across DeFi.\n    ",
  prevention := ["Always use checked_add, checked_sub, checked_mul, checked_div",
    "Use saturating_* methods when capping at max/min is acceptable",
    "Validate inputs before performing arithmetic",
    "Use larger intermediate types (u128) for complex calculations",
    "Add explicit bounds checks even with checked arithmetic",
    "Consider using libraries like uint for arbitrary precision"],
  references := [{ title := "Rust Checked Arithmetic", url := "https://doc.rust-lang.org/std/primitive.u64.html#method.checked_add" },
    { title := "Solana Security Best Practices", url := "https://solana.com/docs/programs/security" }] },
 {
  id := "pda-seed-collision",
  title := "PDA Seed Collision",
  description := "Using predictable or insufficient seeds for PDAs, allowing attackers to access or overwrite accounts.",
  severity := Severity.high,
  category := "PDA Security",
  explanation := "\nProgram Derived Addresses (PDAs) are deterministically generated from seeds and a program ID. If the seeds are predictable or don\x27t include sufficient unique identifiers, attackers can:\n\n1. **Predict PDAs**: Calculate addresses before they\x27re created\n2. **Collide PDAs**: Create accounts that map to the same address\n3. **Access Control Bypass**: Access accounts meant for other users\n\nCommon mistakes include:\n- Using only user-controlled data as seeds\n- Not including unique identifiers (user pubkey, nonce)\n- Using sequential or predictable values\n- Not validating PDA derivation in instructions\n    ",
  vulnerableCode := "use anchor_lang::prelude::*;\n\ndeclare_id!(\"Vuln444444444444444444444444444444444444444\");\n\n#[program]\npub mod vulnerable_pda \x7b\n    use super::*;\n\n    // \u274c VULNERABLE: Predictable seeds without user binding\n    pub fn create_vault(\n        ctx: Context<CreateVault>,\n        vault_name: String,\n    ) -> Result<()> \x7b\n        let vault = &mut ctx.accounts.vault;\n        vault.authority = ctx.accounts.authority.key();\n        vault.balance = 0;\n        vault.name = vault_name;\n        \n        msg!(\"Created vault: \x7b\x7d\", vault.name);\n        Ok(())\n    \x7d\n\n    // \u274c VULNERABLE: No PDA verification in withdraw\n    pub fn withdraw(ctx: Context<Withdraw>, amount: u64) -> Result<()> \x7b\n        let vault = &mut ctx.accounts.vault;\n        \n        // Only checks authority matches, but PDA could be wrong!\n        require_keys_eq!(\n            vault.authority,\n            ctx.accounts.authority.key(),\n            ErrorCode::Unauthorized\n        );\n        \n        vault.balance = vault.balance.checked_sub(amount)\n            .ok_or(ErrorCode::InsufficientFunds)?;\n        \n        Ok(())\n    \x7d\n\x7d\n\n#[derive(Accounts)]\n#[instruction(vault_name: String)]\npub struct CreateVault<\x27info> \x7b\n    // \u274c VULNERABLE: Seeds only use vault_name\n    // Any user can create a vault with the same name\n    // First user\x27s vault gets overwritten!\n    #[account(\n        init,\n        payer = authority,\n        space = 8 + Vault::INIT_SPACE,\n        seeds = [b\"vault\", vault_name.as_bytes()],\n        bump\n    )]\n    pub vault: Account<\x27info, Vault>,\n    \n    #[account(mut)]\n    pub authority: Signer<\x27info>,\n    \n    pub system_program: Program<\x27info, System>,\n\x7d\n\n#[derive(Accounts)]\npub struct Withdraw<\x27info> \x7b\n    // \u274c VULNERABLE: No seeds constraint to verify PDA\n    #[account(mut)]\n    pub vault: Account<\x27info, Vault>,\n    \n    pub authority: Signer<\x27info>,\n\x7d\n\n#[account]\n#[derive(InitSpace)]\npub struct Vault \x7b\n    pub authority: Pubkey,\n    pub balance: u64,\n    #[max_len(32)]\n    pub name: String,\n\x7d\n\n#[error_code]\npub enum ErrorCode \x7b\n    #[msg(\"Unauthorized access\")]\n    Unauthorized,\n    #[msg(\"Insufficient funds\")]\n    InsufficientFunds,\n\x7d",
  secureCode := "use anchor_lang::prelude::*;\n\ndeclare_id!(\"Secure4444444444444444444444444444444444444\");\n\n#[program]\npub mod secure_pda \x7b\n    use super::*;\n\n    // \u2705 SECURE: User-bound PDA with proper seeds\n    pub fn create_vault(\n        ctx: Context<CreateVault>,\n        vault_name: String,\n    ) -> Result<()> \x7b\n        let vault = &mut ctx.accounts.vault;\n        vault.authority = ctx.accounts.authority.key();\n        vault.balance = 0;\n        vault.name = vault_name;\n        vault.bump = ctx.bumps.vault;\n        \n        msg!(\"Created vault \x27\x7b\x7d\x27 for user \x7b\x7d\", \n            vault.name, \n            vault.authority\n        );\n        Ok(())\n    \x7d\n\n    // \u2705 SECURE: PDA verification in withdraw\n    pub fn withdraw(ctx: Context<Withdraw>, amount: u64) -> Result<()> \x7b\n        let vault = &mut ctx.accounts.vault;\n        \n        vault.balance = vault.balance.checked_sub(amount)\n            .ok_or(ErrorCode::InsufficientFunds)?;\n        \n        msg!(\"Withdrew \x7b\x7d from vault \x27\x7b\x7d\x27\", amount, vault.name);\n        Ok(())\n    \x7d\n    \n    // \u2705 SECURE: Using PDA for signing (e.g., token transfers)\n    pub fn transfer_from_vault(\n        ctx: Context<TransferFromVault>,\n        amount: u64,\n    ) -> Result<()> \x7b\n        let vault = &ctx.accounts.vault;\n        let authority_key = ctx.accounts.authority.key();\n        \n        // \u2705 SECURE: Reconstruct seeds for PDA signing\n        let seeds = &[\n            b\"vault\".as_ref(),\n            authority_key.as_ref(),\n            vault.name.as_bytes(),\n            &[vault.bump],\n        ];\n        let signer_seeds = &[&seeds[..]];\n        \n        // Use signer_seeds for CPI calls...\n        msg!(\"Transfer \x7b\x7d from vault PDA\", amount);\n        \n        Ok(())\n    \x7d\n\x7d\n\n#[derive(Accounts)]\n#[instruction(vault_name: String)]\npub struct CreateVault<\x27info> \x7b\n    // \u2705 SECURE: Seeds include authority pubkey\n    // Each user gets their own unique vault PDA\n    #[account(\n        init,\n        payer = authority,\n        space = 8 + Vault::INIT_SPACE,\n        seeds = [\n            b\"vault\",\n            authority.key().as_ref(),\n            vault_name.as_bytes()\n        ],\n        bump\n    )]\n    pub vault: Account<\x27info, Vault>,\n    \n    #[account(mut)]\n    pub authority: Signer<\x27info>,\n    \n    pub system_program: Program<\x27info, System>,\n\x7d\n\n#[derive(Accounts)]\n#[instruction()]\npub struct Withdraw<\x27info> \x7b\n    // \u2705 SECURE: Full PDA verification with seeds\n    #[account(\n        mut,\n        seeds = [\n            b\"vault\",\n            authority.key().as_ref(),\n            vault.name.as_bytes()\n        ],\n        bump = vault.bump,\n        has_one = authority @ ErrorCode::Unauthorized\n    )]\n    pub vault: Account<\x27info, Vault>,\n    \n    pub authority: Signer<\x27info>,\n\x7d\n\n#[derive(Accounts)]\npub struct TransferFromVault<\x27info> \x7b\n    #[account(\n        seeds = [\n            b\"vault\",\n            authority.key().as_ref(),\n            vault.name.as_bytes()\n        ],\n        bump = vault.bump,\n        has_one = authority @ ErrorCode::Unauthorized\n    )]\n    pub vault: Account<\x27info, Vault>,\n    \n    pub authority: Signer<\x27info>,\n\x7d\n\n#[account]\n#[derive(InitSpace)]\npub struct Vault \x7b\n    pub authority: Pubkey,\n    pub balance: u64,\n    #[max_len(32)]\n    pub name: String,\n    pub bump: u8,  // \u2705 Store bump for efficient re-derivation\n\x7d\n\n#[error_code]\npub enum ErrorCode \x7b\n    #[msg(\"Unauthorized access to vault\")]\n    Unauthorized,\n    #[msg(\"Insufficient funds in vault\")]\n    InsufficientFunds,\n\x7d",
  vulnerableExplanation := "\n**What\x27s Wrong:**\n\n1. **Insufficient Seeds:**\n   - Only uses \x60vault_name\x60 in seeds\n   - Two users creating \"savings\" vault collide\n   - Second user overwrites first user\x27s vault\n\n2. **Missing PDA Verification:**\n   - Withdraw doesn\x27t verify PDA derivation\n   - Attacker can pass any account with matching authority\n   - Could access accounts not meant for them\n\n**Attack Vectors:**\n- Create vault with common name, wait for victim to deposit\n- Pass manipulated account data to withdraw\n    ",
  secureExplanation := "\n**Security Measures:**\n\n1. **User-Bound Seeds:**\n   - Include \x60authority.key()\x60 in seeds\n   - Each user gets unique PDA even with same name\n   - Impossible to collide with other users\n\n2. **Full PDA Verification:**\n   - Seeds constraint in withdraw verifies derivation\n   - \x60has_one\x60 ensures authority matches\n   - Stored bump enables efficient re-derivation\n\n3. **Bump Storage:**\n   - Store bump in account for CPI signing\n   - Avoids expensive re-computation\n    ",
  attackScenario := "\n**Real-World Attack Scenario:**\n\n1. Protocol uses vault_name only for PDA seeds\n2. Attacker creates vault named \"main\" (common name)\n3. Victim creates their vault also named \"main\"\n4. Victim\x27s transaction fails OR overwrites attacker\x27s vault\n5. If overwrite: attacker\x27s authority is replaced\n6. If fail: victim can\x27t create vault, DoS attack\n\n**Alternative Attack:**\n1. Attacker predicts common vault names\n2. Pre-creates vaults for all common names\n3. Sets themselves as authority\n4. Waits for victims to deposit to \"their\" vaults\n5. Drains all deposits\n    ",
  prevention := ["Always include user pubkey in PDA seeds",
    "Use unique identifiers (timestamps, counters) when needed",
    "Verify PDA derivation in all instructions that access PDAs",
    "Store and validate bump seeds",
    "Use has_one constraint for authority checks",
    "Consider using canonical bump (first valid bump)"],
  references := [{ title := "Anchor PDA Documentation", url := "https://www.anchor-lang.com/docs/pdas" },
    { title := "Solana PDA Deep Dive", url := "https://solana.com/docs/core/pda" }] },
 {
  id := "unsafe-cpi",
  title := "Unsafe Cross-Program Invocation (CPI)",
  description := "Improper CPI handling leading to privilege escalation, reentrancy, or unauthorized program calls.",
  severity := Severity.critical,
  category := "CPI Security",
  explanation := "\nCross-Program Invocation (CPI) allows programs to call other programs. This powerful feature introduces several security risks:\n\n1. **Privilege Escalation**: Passing signer seeds incorrectly\n2. **Reentrancy**: Called program calls back into your program\n3. **Fake Program**: Calling a malicious program instead of intended one\n4. **Account Confusion**: Passing wrong accounts to CPI\n\nCPI security requires:\n- Verifying the program being called\n- Careful handling of signer privileges\n- State management before/after CPI\n- Understanding the called program\x27s behavior\n    ",
  vulnerableCode := "use anchor_lang::prelude::*;\nuse anchor_spl::token::\x7bself, Token, TokenAccount, Transfer\x7d;\n\ndeclare_id!(\"Vuln555555555555555555555555555555555555555\");\n\n#[program]\npub mod vulnerable_cpi \x7b\n    use super::*;\n\n    // \u274c VULNERABLE: No program ID verification for CPI\n    pub fn swap_tokens(\n        ctx: Context<SwapTokens>,\n        amount: u64,\n    ) -> Result<()> \x7b\n        // \u274c VULNERABLE: Calling unverified program!\n        // Attacker can pass a malicious program that steals funds\n        let cpi_accounts = Transfer \x7b\n            from: ctx.accounts.user_token_a.to_account_info(),\n            to: ctx.accounts.pool_token_a.to_account_info(),\n            authority: ctx.accounts.user.to_account_info(),\n        \x7d;\n        \n        // \u274c VULNERABLE: token_program is not verified!\n        let cpi_ctx = CpiContext::new(\n            ctx.accounts.token_program.to_account_info(),\n            cpi_accounts,\n        );\n        \n        token::transfer(cpi_ctx, amount)?;\n        \n        // State update AFTER CPI - vulnerable to reentrancy\n        let pool = &mut ctx.accounts.pool;\n        pool.total_deposits += amount;\n        \n        Ok(())\n    \x7d\n\n    // \u274c VULNERABLE: Reentrancy through callback\n    pub fn deposit_with_callback(\n        ctx: Context<DepositWithCallback>,\n        amount: u64,\n    ) -> Result<()> \x7b\n        let vault = &mut ctx.accounts.vault;\n        \n        // \u274c VULNERABLE: State updated AFTER external call\n        // Malicious callback can re-enter and drain funds\n        \n        // External call first (BAD!)\n        let cpi_accounts = Transfer \x7b\n            from: ctx.accounts.user_tokens.to_account_info(),\n            to: ctx.accounts.vault_tokens.to_account_info(),\n            authority: ctx.accounts.user.to_account_info(),\n        \x7d;\n        let cpi_ctx = CpiContext::new(\n            ctx.accounts.token_program.to_account_info(),\n            cpi_accounts,\n        );\n        token::transfer(cpi_ctx, amount)?;\n        \n        // \u274c State update after CPI - REENTRANCY RISK!\n        vault.balance += amount;\n        vault.last_deposit = Clock::get()?.unix_timestamp;\n        \n        Ok(())\n    \x7d\n\x7d\n\n#[derive(Accounts)]\npub struct SwapTokens<\x27info> \x7b\n    #[account(mut)]\n    pub user: Signer<\x27info>,\n    \n    #[account(mut)]\n    pub user_token_a: Account<\x27info, TokenAccount>,\n    \n    #[account(mut)]\n    pub pool_token_a: Account<\x27info, TokenAccount>,\n    \n    #[account(mut)]\n    pub pool: Account<\x27info, Pool>,\n    \n    // \u274c VULNERABLE: No verification this is the real token program!\n    /// CHECK: Should verify this is Token program\n    pub token_program: AccountInfo<\x27info>,\n\x7d\n\n#[derive(Accounts)]\npub struct DepositWithCallback<\x27info> \x7b\n    #[account(mut)]\n    pub user: Signer<\x27info>,\n    \n    #[account(mut)]\n    pub user_tokens: Account<\x27info, TokenAccount>,\n    \n    #[account(mut)]\n    pub vault_tokens: Account<\x27info, TokenAccount>,\n    \n    #[account(mut)]\n    pub vault: Account<\x27info, Vault>,\n    \n    pub token_program: Program<\x27info, Token>,\n\x7d\n\n#[account]\npub struct Pool \x7b\n    pub authority: Pubkey,\n    pub total_deposits: u64,\n\x7d\n\n#[account]\npub struct Vault \x7b\n    pub authority: Pubkey,\n    pub balance: u64,\n    pub last_deposit: i64,\n\x7d",
  secureCode := "use anchor_lang::prelude::*;\nuse anchor_spl::token::\x7bself, Token, TokenAccount, Transfer\x7d;\n\ndeclare_id!(\"Secure5555555555555555555555555555555555555\");\n\n#[program]\npub mod secure_cpi \x7b\n    use super::*;\n\n    // \u2705 SECURE: Verified program ID for CPI\n    pub fn swap_tokens(\n        ctx: Context<SwapTokens>,\n        amount: u64,\n    ) -> Result<()> \x7b\n        // \u2705 SECURE: Update state BEFORE CPI (checks-effects-interactions)\n        let pool = &mut ctx.accounts.pool;\n        \n        // Validate amount\n        require!(amount > 0, ErrorCode::InvalidAmount);\n        require!(\n            ctx.accounts.user_token_a.amount >= amount,\n            ErrorCode::InsufficientBalance\n        );\n        \n        // Update state first\n        pool.total_deposits = pool.total_deposits\n            .checked_add(amount)\n            .ok_or(ErrorCode::Overflow)?;\n        \n        // \u2705 SECURE: CPI with verified token program\n        let cpi_accounts = Transfer \x7b\n            from: ctx.accounts.user_token_a.to_account_info(),\n            to: ctx.accounts.pool_token_a.to_account_info(),\n            authority: ctx.accounts.user.to_account_info(),\n        \x7d;\n        \n        // Program<\x27info, Token> ensures this is the real token program\n        let cpi_ctx = CpiContext::new(\n            ctx.accounts.token_program.to_account_info(),\n            cpi_accounts,\n        );\n        \n        token::transfer(cpi_ctx, amount)?;\n        \n        emit!(SwapEvent \x7b\n            user: ctx.accounts.user.key(),\n            amount,\n            timestamp: Clock::get()?.unix_timestamp,\n        \x7d);\n        \n        Ok(())\n    \x7d\n\n    // \u2705 SECURE: Reentrancy-safe deposit\n    pub fn deposit_with_callback(\n        ctx: Context<DepositWithCallback>,\n        amount: u64,\n    ) -> Result<()> \x7b\n        let vault = &mut ctx.accounts.vault;\n        \n        // \u2705 SECURE: Validate inputs\n        require!(amount > 0, ErrorCode::InvalidAmount);\n        require!(\n            ctx.accounts.user_tokens.amount >= amount,\n            ErrorCode::InsufficientBalance\n        );\n        \n        // \u2705 SECURE: Update state BEFORE external call\n        // This prevents reentrancy attacks\n        vault.balance = vault.balance\n            .checked_add(amount)\n            .ok_or(ErrorCode::Overflow)?;\n        vault.last_deposit = Clock::get()?.unix_timestamp;\n        \n        // \u2705 SECURE: Set reentrancy guard (optional extra protection)\n        require!(!vault.locked, ErrorCode::ReentrancyDetected);\n        vault.locked = true;\n        \n        // External call AFTER state update\n        let cpi_accounts = Transfer \x7b\n            from: ctx.accounts.user_tokens.to_account_info(),\n            to: ctx.accounts.vault_tokens.to_account_info(),\n            authority: ctx.accounts.user.to_account_info(),\n        \x7d;\n        let cpi_ctx = CpiContext::new(\n            ctx.accounts.token_program.to_account_info(),\n            cpi_accounts,\n        );\n        token::transfer(cpi_ctx, amount)?;\n        \n        // \u2705 Release reentrancy guard\n        let vault = &mut ctx.accounts.vault;\n        vault.locked = false;\n        \n        Ok(())\n    \x7d\n    \n    // \u2705 SECURE: CPI with PDA signer\n    pub fn transfer_from_pool(\n        ctx: Context<TransferFromPool>,\n        amount: u64,\n    ) -> Result<()> \x7b\n        let pool = &ctx.accounts.pool;\n        \n        // \u2705 SECURE: Construct signer seeds carefully\n        let pool_seed = pool.seed.as_bytes();\n        let bump = pool.bump;\n        let seeds = &[\n            b\"pool\".as_ref(),\n            pool_seed,\n            &[bump],\n        ];\n        let signer_seeds = &[&seeds[..]];\n        \n        let cpi_accounts = Transfer \x7b\n            from: ctx.accounts.pool_tokens.to_account_info(),\n            to: ctx.accounts.recipient_tokens.to_account_info(),\n            authority: ctx.accounts.pool.to_account_info(),\n        \x7d;\n        \n        // \u2705 SECURE: CPI with signer seeds\n        let cpi_ctx = CpiContext::new_with_signer(\n            ctx.accounts.token_program.to_account_info(),\n            cpi_accounts,\n            signer_seeds,\n        );\n        \n        token::transfer(cpi_ctx, amount)?;\n        \n        Ok(())\n    \x7d\n\x7d\n\n#[derive(Accounts)]\npub struct SwapTokens<\x27info> \x7b\n    #[account(mut)]\n    pub user: Signer<\x27info>,\n    \n    #[account(\n        mut,\n        constraint = user_token_a.owner == user.key() @ ErrorCode::InvalidOwner\n    )]\n    pub user_token_a: Account<\x27info, TokenAccount>,\n    \n    #[account(\n        mut,\n        constraint = pool_token_a.owner == pool.key() @ ErrorCode::InvalidOwner\n    )]\n    pub pool_token_a: Account<\x27info, TokenAccount>,\n    \n    #[account(mut)]\n    pub pool: Account<\x27info, Pool>,\n    \n    // \u2705 SECURE: Program<\x27info, Token> verifies program ID\n    pub token_program: Program<\x27info, Token>,\n\x7d\n\n#[derive(Accounts)]\npub struct DepositWithCallback<\x27info> \x7b\n    #[account(mut)]\n    pub user: Signer<\x27info>,\n    \n    #[account(\n        mut,\n        constraint = user_tokens.owner == user.key() @ ErrorCode::InvalidOwner\n    )]\n    pub user_tokens: Account<\x27info, TokenAccount>,\n    \n    #[account(mut)]\n    pub vault_tokens: Account<\x27info, TokenAccount>,\n    \n    #[account(\n        mut,\n        has_one = authority @ ErrorCode::Unauthorized\n    )]\n    pub vault: Account<\x27info, Vault>,\n    \n    pub authority: Signer<\x27info>,\n    \n    pub token_program: Program<\x27info, Token>,\n\x7d\n\n#[derive(Accounts)]\npub struct TransferFromPool<\x27info> \x7b\n    #[account(\n        seeds = [b\"pool\", pool.seed.as_bytes()],\n        bump = pool.bump,\n        has_one = authority @ ErrorCode::Unauthorized\n    )]\n    pub pool: Account<\x27info, Pool>,\n    \n    #[account(mut)]\n    pub pool_tokens: Account<\x27info, TokenAccount>,\n    \n    #[account(mut)]\n    pub recipient_tokens: Account<\x27info, TokenAccount>,\n    \n    pub authority: Signer<\x27info>,\n    \n    pub token_program: Program<\x27info, Token>,\n\x7d\n\n#[account]\npub struct Pool \x7b\n    pub authority: Pubkey,\n    pub total_deposits: u64,\n    pub seed: String,\n    pub bump: u8,\n\x7d\n\n#[account]\npub struct Vault \x7b\n    pub authority: Pubkey,\n    pub balance: u64,\n    pub last_deposit: i64,\n    pub locked: bool,  // Reentrancy guard\n\x7d\n\n#[event]\npub struct SwapEvent \x7b\n    pub user: Pubkey,\n    pub amount: u64,\n    pub timestamp: i64,\n\x7d\n\n#[error_code]\npub enum ErrorCode \x7b\n    #[msg(\"Invalid amount\")]\n    InvalidAmount,\n    #[msg(\"Insufficient balance\")]\n    InsufficientBalance,\n    #[msg(\"Arithmetic overflow\")]\n    Overflow,\n    #[msg(\"Invalid token account owner\")]\n    InvalidOwner,\n    #[msg(\"Unauthorized\")]\n    Unauthorized,\n    #[msg(\"Reentrancy detected\")]\n    ReentrancyDetected,\n\x7d",
  vulnerableExplanation := "\n**What\x27s Wrong:**\n\n1. **Unverified Program:**\n   - \x60token_program\x60 is raw AccountInfo\n   - Attacker can pass malicious program\n   - Fake program can steal tokens\n\n2. **Reentrancy Risk:**\n   - State updated AFTER CPI\n   - Malicious token can callback\n   - Re-enter and exploit stale state\n\n3. **Missing Validations:**\n   - No ownership checks on token accounts\n   - No amount validation\n   - No overflow protection\n    ",
  secureExplanation := "\n**Security Measures:**\n\n1. **Program Verification:**\n   - \x60Program<\x27info, Token>\x60 verifies program ID\n   - Cannot pass fake token program\n\n2. **Checks-Effects-Interactions:**\n   - Update state BEFORE CPI\n   - Reentrancy can\x27t exploit stale state\n\n3. **Reentrancy Guard:**\n   - Lock flag prevents re-entry\n   - Extra protection layer\n\n4. **Comprehensive Validation:**\n   - Token account ownership\n   - Amount bounds\n   - Overflow protection\n    ",
  attackScenario := "\n**Reentrancy Attack Scenario:**\n\n1. Attacker deploys malicious token contract\n2. Token\x27s transfer function calls back to deposit\n3. Attack flow:\n   - Call deposit(100)\n   - CPI to malicious token\n   - Token calls deposit(100) again\n   - State not yet updated, passes checks\n   - Repeat until drained\n4. Final state shows deposits but tokens stolen\n\n**Fake Program Attack:**\n\n1. Attacker deploys fake \"token program\"\n2. Fake program\x27s transfer does nothing\n3. Attacker calls swap with fake program\n4. Pool state updated (thinks it received tokens)\n5. Attacker gets output tokens for free\n    ",
  prevention := ["Always use Program<\x27info, T> for CPI targets",
    "Follow checks-effects-interactions pattern",
    "Update state BEFORE external calls",
    "Consider reentrancy guards for complex flows",
    "Validate all account relationships",
    "Use events for off-chain tracking",
    "Test with malicious program simulations"],
  references := [{ title := "Anchor CPI Documentation", url := "https://www.anchor-lang.com/docs/cross-program-invocations" },
    { title := "Solana CPI Deep Dive", url := "https://solana.com/docs/core/cpi" }] },
 {
  id := "account-data-matching",
  title := "Account Data Matching Vulnerabilities",
  description := "Failing to verify relationships between accounts, allowing attackers to substitute malicious accounts.",
  severity := Severity.high,
  category := "Account Validation",
  explanation := "\nSolana programs often work with multiple related accounts (e.g., a user account and their token account, or a pool and its vaults). Failing to verify these relationships allows attackers to:\n\n1. **Substitute Accounts**: Pass their own account instead of the expected one\n2. **Steal Funds**: Redirect transfers to attacker-controlled accounts\n3. **Bypass Access Control**: Use accounts from different contexts\n\nCommon patterns that need validation:\n- Token account ownership\n- PDA derivation relationships\n- Authority/owner fields matching signers\n- Mint relationships for token accounts\n    ",
  vulnerableCode := "use anchor_lang::prelude::*;\nuse anchor_spl::token::\x7bself, Token, TokenAccount, Mint, Transfer\x7d;\n\ndeclare_id!(\"Vuln666666666666666666666666666666666666666\");\n\n#[program]\npub mod vulnerable_matching \x7b\n    use super::*;\n\n    // \u274c VULNERABLE: No verification that token accounts belong to user\n    pub fn transfer_tokens(\n        ctx: Context<TransferTokens>,\n        amount: u64,\n    ) -> Result<()> \x7b\n        // \u274c VULNERABLE: from_account might not belong to user!\n        // Attacker can pass victim\x27s token account as from_account\n        let cpi_accounts = Transfer \x7b\n            from: ctx.accounts.from_account.to_account_info(),\n            to: ctx.accounts.to_account.to_account_info(),\n            authority: ctx.accounts.authority.to_account_info(),\n        \x7d;\n        \n        let cpi_ctx = CpiContext::new(\n            ctx.accounts.token_program.to_account_info(),\n            cpi_accounts,\n        );\n        \n        token::transfer(cpi_ctx, amount)?;\n        \n        Ok(())\n    \x7d\n\n    // \u274c VULNERABLE: No mint verification\n    pub fn deposit_to_pool(\n        ctx: Context<DepositToPool>,\n        amount: u64,\n    ) -> Result<()> \x7b\n        let pool = &mut ctx.accounts.pool;\n        \n        // \u274c VULNERABLE: user_tokens might be for wrong mint!\n        // Attacker deposits worthless tokens, gets valuable pool shares\n        pool.total_deposits += amount;\n        \n        // Transfer happens but mint isn\x27t verified\n        let cpi_accounts = Transfer \x7b\n            from: ctx.accounts.user_tokens.to_account_info(),\n            to: ctx.accounts.pool_tokens.to_account_info(),\n            authority: ctx.accounts.user.to_account_info(),\n        \x7d;\n        \n        let cpi_ctx = CpiContext::new(\n            ctx.accounts.token_program.to_account_info(),\n            cpi_accounts,\n        );\n        \n        token::transfer(cpi_ctx, amount)?;\n        \n        Ok(())\n    \x7d\n\n    // \u274c VULNERABLE: No relationship verification between accounts\n    pub fn claim_rewards(\n        ctx: Context<ClaimRewards>,\n    ) -> Result<()> \x7b\n        let staking = &ctx.accounts.staking_account;\n        let rewards = staking.pending_rewards;\n        \n        // \u274c VULNERABLE: reward_vault might not be the pool\x27s vault!\n        // Attacker can pass any vault they control\n        \n        msg!(\"Claiming \x7b\x7d rewards\", rewards);\n        \n        // Would transfer from wrong vault...\n        \n        Ok(())\n    \x7d\n\x7d\n\n#[derive(Accounts)]\npub struct TransferTokens<\x27info> \x7b\n    // \u274c VULNERABLE: No owner constraint\n    #[account(mut)]\n    pub from_account: Account<\x27info, TokenAccount>,\n    \n    #[account(mut)]\n    pub to_account: Account<\x27info, TokenAccount>,\n    \n    pub authority: Signer<\x27info>,\n    \n    pub token_program: Program<\x27info, Token>,\n\x7d\n\n#[derive(Accounts)]\npub struct DepositToPool<\x27info> \x7b\n    #[account(mut)]\n    pub user: Signer<\x27info>,\n    \n    // \u274c VULNERABLE: No mint constraint\n    #[account(mut)]\n    pub user_tokens: Account<\x27info, TokenAccount>,\n    \n    // \u274c VULNERABLE: No relationship to pool verified\n    #[account(mut)]\n    pub pool_tokens: Account<\x27info, TokenAccount>,\n    \n    #[account(mut)]\n    pub pool: Account<\x27info, Pool>,\n    \n    pub token_program: Program<\x27info, Token>,\n\x7d\n\n#[derive(Accounts)]\npub struct ClaimRewards<\x27info> \x7b\n    pub user: Signer<\x27info>,\n    \n    #[account(mut)]\n    pub staking_account: Account<\x27info, StakingAccount>,\n    \n    // \u274c VULNERABLE: No verification this is the correct reward vault\n    #[account(mut)]\n    pub reward_vault: Account<\x27info, TokenAccount>,\n    \n    #[account(mut)]\n    pub user_reward_account: Account<\x27info, TokenAccount>,\n    \n    pub token_program: Program<\x27info, Token>,\n\x7d\n\n#[account]\npub struct Pool \x7b\n    pub authority: Pubkey,\n    pub total_deposits: u64,\n    pub token_mint: Pubkey,\n\x7d\n\n#[account]\npub struct StakingAccount \x7b\n    pub owner: Pubkey,\n    pub pool: Pubkey,\n    pub amount: u64,\n    pub pending_rewards: u64,\n\x7d",
  secureCode := "use anchor_lang::prelude::*;\nuse anchor_spl::token::\x7bself, Token, TokenAccount, Mint, Transfer\x7d;\n\ndeclare_id!(\"Secure6666666666666666666666666666666666666\");\n\n#[program]\npub mod secure_matching \x7b\n    use super::*;\n\n    // \u2705 SECURE: Full account relationship verification\n    pub fn transfer_tokens(\n        ctx: Context<TransferTokens>,\n        amount: u64,\n    ) -> Result<()> \x7b\n        // All validations handled by constraints\n        // from_account.owner == authority is verified\n        \n        let cpi_accounts = Transfer \x7b\n            from: ctx.accounts.from_account.to_account_info(),\n            to: ctx.accounts.to_account.to_account_info(),\n            authority: ctx.accounts.authority.to_account_info(),\n        \x7d;\n        \n        let cpi_ctx = CpiContext::new(\n            ctx.accounts.token_program.to_account_info(),\n            cpi_accounts,\n        );\n        \n        token::transfer(cpi_ctx, amount)?;\n        \n        emit!(TransferEvent \x7b\n            from: ctx.accounts.from_account.key(),\n            to: ctx.accounts.to_account.key(),\n            amount,\n            authority: ctx.accounts.authority.key(),\n        \x7d);\n        \n        Ok(())\n    \x7d\n\n    // \u2705 SECURE: Mint and relationship verification\n    pub fn deposit_to_pool(\n        ctx: Context<DepositToPool>,\n        amount: u64,\n    ) -> Result<()> \x7b\n        let pool = &mut ctx.accounts.pool;\n        \n        // Validate amount\n        require!(amount > 0, ErrorCode::InvalidAmount);\n        \n        // Update state with overflow protection\n        pool.total_deposits = pool.total_deposits\n            .checked_add(amount)\n            .ok_or(ErrorCode::Overflow)?;\n        \n        // All account relationships verified by constraints\n        let cpi_accounts = Transfer \x7b\n            from: ctx.accounts.user_tokens.to_account_info(),\n            to: ctx.accounts.pool_tokens.to_account_info(),\n            authority: ctx.accounts.user.to_account_info(),\n        \x7d;\n        \n        let cpi_ctx = CpiContext::new(\n            ctx.accounts.token_program.to_account_info(),\n            cpi_accounts,\n        );\n        \n        token::transfer(cpi_ctx, amount)?;\n        \n        Ok(())\n    \x7d\n\n    // \u2705 SECURE: Full relationship chain verification\n    pub fn claim_rewards(\n        ctx: Context<ClaimRewards>,\n    ) -> Result<()> \x7b\n        let staking = &mut ctx.accounts.staking_account;\n        let pool = &ctx.accounts.pool;\n        \n        let rewards = staking.pending_rewards;\n        require!(rewards > 0, ErrorCode::NoRewardsToClaim);\n        \n        // Clear pending rewards BEFORE transfer (CEI pattern)\n        staking.pending_rewards = 0;\n        \n        // Construct PDA signer for pool\n        let pool_seeds = &[\n            b\"pool\".as_ref(),\n            pool.token_mint.as_ref(),\n            &[pool.bump],\n        ];\n        let signer_seeds = &[&pool_seeds[..]];\n        \n        let cpi_accounts = Transfer \x7b\n            from: ctx.accounts.reward_vault.to_account_info(),\n            to: ctx.accounts.user_reward_account.to_account_info(),\n            authority: ctx.accounts.pool.to_account_info(),\n        \x7d;\n        \n        let cpi_ctx = CpiContext::new_with_signer(\n            ctx.accounts.token_program.to_account_info(),\n            cpi_accounts,\n            signer_seeds,\n        );\n        \n        token::transfer(cpi_ctx, rewards)?;\n        \n        emit!(RewardClaimEvent \x7b\n            user: ctx.accounts.user.key(),\n            pool: pool.key(),\n            amount: rewards,\n        \x7d);\n        \n        Ok(())\n    \x7d\n\x7d\n\n#[derive(Accounts)]\npub struct TransferTokens<\x27info> \x7b\n    // \u2705 SECURE: Verify from_account is owned by authority\n    #[account(\n        mut,\n        constraint = from_account.owner == authority.key() @ ErrorCode::InvalidOwner,\n        constraint = from_account.mint == to_account.mint @ ErrorCode::MintMismatch\n    )]\n    pub from_account: Account<\x27info, TokenAccount>,\n    \n    #[account(mut)]\n    pub to_account: Account<\x27info, TokenAccount>,\n    \n    pub authority: Signer<\x27info>,\n    \n    pub token_program: Program<\x27info, Token>,\n\x7d\n\n#[derive(Accounts)]\npub struct DepositToPool<\x27info> \x7b\n    #[account(mut)]\n    pub user: Signer<\x27info>,\n    \n    // \u2705 SECURE: Verify mint matches pool\x27s expected mint\n    #[account(\n        mut,\n        constraint = user_tokens.owner == user.key() @ ErrorCode::InvalidOwner,\n        constraint = user_tokens.mint == pool.token_mint @ ErrorCode::MintMismatch\n    )]\n    pub user_tokens: Account<\x27info, TokenAccount>,\n    \n    // \u2705 SECURE: Verify pool_tokens belongs to pool and has correct mint\n    #[account(\n        mut,\n        constraint = pool_tokens.owner == pool.key() @ ErrorCode::InvalidOwner,\n        constraint = pool_tokens.mint == pool.token_mint @ ErrorCode::MintMismatch\n    )]\n    pub pool_tokens: Account<\x27info, TokenAccount>,\n    \n    // \u2705 SECURE: Pool PDA verification\n    #[account(\n        mut,\n        seeds = [b\"pool\", pool.token_mint.as_ref()],\n        bump = pool.bump\n    )]\n    pub pool: Account<\x27info, Pool>,\n    \n    pub token_program: Program<\x27info, Token>,\n\x7d\n\n#[derive(Accounts)]\npub struct ClaimRewards<\x27info> \x7b\n    pub user: Signer<\x27info>,\n    \n    // \u2705 SECURE: Verify staking account belongs to user and pool\n    #[account(\n        mut,\n        has_one = owner @ ErrorCode::InvalidOwner,\n        constraint = staking_account.pool == pool.key() @ ErrorCode::PoolMismatch\n    )]\n    pub staking_account: Account<\x27info, StakingAccount>,\n    \n    // \u2705 SECURE: Verify pool relationship\n    #[account(\n        seeds = [b\"pool\", pool.token_mint.as_ref()],\n        bump = pool.bump,\n        has_one = reward_vault @ ErrorCode::InvalidRewardVault\n    )]\n    pub pool: Account<\x27info, Pool>,\n    \n    // \u2705 SECURE: Verified through has_one on pool\n    #[account(mut)]\n    pub reward_vault: Account<\x27info, TokenAccount>,\n    \n    // \u2705 SECURE: Verify user owns the reward account\n    #[account(\n        mut,\n        constraint = user_reward_account.owner == user.key() @ ErrorCode::InvalidOwner,\n        constraint = user_reward_account.mint == pool.reward_mint @ ErrorCode::MintMismatch\n    )]\n    pub user_reward_account: Account<\x27info, TokenAccount>,\n    \n    /// CHECK: Verified as staking_account.owner\n    #[account(constraint = owner.key() == user.key() @ ErrorCode::InvalidOwner)]\n    pub owner: AccountInfo<\x27info>,\n    \n    pub token_program: Program<\x27info, Token>,\n\x7d\n\n#[account]\npub struct Pool \x7b\n    pub authority: Pubkey,\n    pub total_deposits: u64,\n    pub token_mint: Pubkey,\n    pub reward_mint: Pubkey,\n    pub reward_vault: Pubkey,\n    pub bump: u8,\n\x7d\n\n#[account]\npub struct StakingAccount \x7b\n    pub owner: Pubkey,\n    pub pool: Pubkey,\n    pub amount: u64,\n    pub pending_rewards: u64,\n\x7d\n\n#[event]\npub struct TransferEvent \x7b\n    pub from: Pubkey,\n    pub to: Pubkey,\n    pub amount: u64,\n    pub authority: Pubkey,\n\x7d\n\n#[event]\npub struct RewardClaimEvent \x7b\n    pub user: Pubkey,\n    pub pool: Pubkey,\n    pub amount: u64,\n\x7d\n\n#[error_code]\npub enum ErrorCode \x7b\n    #[msg(\"Invalid account owner\")]\n    InvalidOwner,\n    #[msg(\"Token mint mismatch\")]\n    MintMismatch,\n    #[msg(\"Pool mismatch\")]\n    PoolMismatch,\n    #[msg(\"Invalid reward vault\")]\n    InvalidRewardVault,\n    #[msg(\"Invalid amount\")]\n    InvalidAmount,\n    #[msg(\"Arithmetic overflow\")]\n    Overflow,\n    #[msg(\"No rewards to claim\")]\n    NoRewardsToClaim,\n\x7d",
  vulnerableExplanation := "\n**What\x27s Wrong:**\n\n1. **No Owner Verification:**\n   - Token accounts not verified to belong to signer\n   - Attacker can pass victim\x27s accounts\n\n2. **No Mint Verification:**\n   - Token mints not checked\n   - Attacker deposits worthless tokens\n\n3. **No Relationship Verification:**\n   - Pool and vault relationship not verified\n   - Attacker can redirect rewards\n\n**Attack Vectors:**\n- Pass victim\x27s token account as source\n- Deposit fake tokens, get real pool shares\n- Claim rewards from wrong vault\n    ",
  secureExplanation := "\n**Security Measures:**\n\n1. **Owner Constraints:**\n   - \x60token_account.owner == signer.key()\x60\n   - Ensures accounts belong to transaction signer\n\n2. **Mint Constraints:**\n   - \x60user_tokens.mint == pool.token_mint\x60\n   - Prevents depositing wrong tokens\n\n3. **Relationship Chains:**\n   - \x60has_one\x60 verifies stored references\n   - PDA seeds verify derivation\n   - Full chain from user \u2192 staking \u2192 pool \u2192 vault\n\n4. **Defense in Depth:**\n   - Multiple validation layers\n   - Events for audit trail\n    ",
  attackScenario := "\n**Account Substitution Attack:**\n\n1. Pool accepts USDC deposits\n2. Attacker creates worthless \"FAKE\" token\n3. Attacker:\n   - Creates FAKE token account\n   - Calls deposit with FAKE tokens\n   - No mint verification, deposit succeeds\n   - Receives pool shares worth real USDC\n4. Attacker redeems shares for real USDC\n5. Pool is drained of real value\n\n**Reward Theft Attack:**\n\n1. Attacker finds pool with large reward vault\n2. Creates fake staking account pointing to pool\n3. Sets pending_rewards to maximum\n4. Calls claim_rewards with:\n   - Fake staking account\n   - Real pool\x27s reward vault\n5. Drains entire reward vault\n    ",
  prevention := ["Always verify token account ownership matches signer",
    "Verify mint relationships for all token operations",
    "Use has_one for stored account references",
    "Verify full relationship chains (user \u2192 account \u2192 pool)",
    "Use PDAs to enforce account derivation",
    "Add events for monitoring and auditing",
    "Test with account substitution scenarios"],
  references := [{ title := "Anchor Constraints", url := "https://www.anchor-lang.com/docs/account-constraints" },
    { title := "SPL Token Security", url := "https://spl.solana.com/token" }] }]

/-- getPatternById of src/patterns.ts: securityPatterns.find on id equality. -/
def getPatternById (id : String) : Option SecurityPattern :=
  securityPatterns.find? (fun pattern => pattern.id == id)

/-- JS Array.prototype.findIndex: index of the first element satisfying p,
and minus one when none does. -/
def jsFindIndex {α : Type} (p : α → Bool) (l : List α) : Int :=
  match l.findIdx? p with
  | some n => (n : Int)
  | none => -1

/-- JS array indexing arr[i] for an integer index: undefined outside
0 .. length - 1, modelled as none. -/
def jsIndex {α : Type} (l : List α) (i : Int) : Option α :=
  if i < 0 then none else l.get? i.toNat

/-- PatternPage (src/HomePage.tsx line 246): securityPatterns.findIndex of
the routed id. -/
def currentIndex (id : String) : Int :=
  jsFindIndex (fun p => p.id == id) securityPatterns

/-- PatternPage (src/HomePage.tsx line 247): securityPatterns at
currentIndex + 1. -/
def nextPattern (id : String) : Option SecurityPattern :=
  jsIndex securityPatterns (currentIndex id + 1)

/-- PatternPage (src/HomePage.tsx line 248): securityPatterns at
currentIndex - 1. -/
def prevPattern (id : String) : Option SecurityPattern :=
  jsIndex securityPatterns (currentIndex id - 1)

/-- The severityColors map of PatternCard (src/PatternCard.tsx lines 23-27). -/
def cardSeverityColors : Severity → String
  | .critical => "bg-error/20 text-error border-error/30"
  | .high => "bg-warning/20 text-warning border-warning/30"
  | .medium => "bg-secondary/20 text-secondary border-secondary/30"

/-- The severityColors map of PatternPage (src/HomePage.tsx lines 240-244). -/
def pageSeverityColors : Severity → String
  | .critical => "bg-error/20 text-error border-error/30"
  | .high => "bg-warning/20 text-warning border-warning/30"
  | .medium => "bg-secondary/20 text-secondary border-secondary/30"

/-- The observable effects the CodeBlock copy handler can emit towards its
environment. surfaceError and retryCopy exist so that their absence is a
statable property; the handler in the source never emits them. -/
inductive CopyEffect where
  | clipboardWrite (payload : String)
  | scheduleRevert (delayMs : Nat)
  | surfaceError (message : String)
  | retryCopy
deriving DecidableEq, Repr

/-- handleCopy of the CodeBlock component (the code display widget): it
awaits the clipboard write of the untrimmed code prop; when the write
resolves it sets copied to true and schedules a revert to false after
2000 ms; when the write rejects, nothing after the await runs (the
rejection propagates to the host with no user-facing handling), so the
copied flag keeps its previous value and no further effect is emitted.
The result is the new copied flag paired with the emitted effects. -/
def handleCopy (code : String) (writeOk : Bool) (copied : Bool) :
    Bool × List CopyEffect :=
  if writeOk then (true, [.clipboardWrite code, .scheduleRevert 2000])
  else (copied, [.clipboardWrite code])

/-- The text the CodeBlock passes to the highlighter (the Highlight element
receives code.trim()). -/
def highlightInput (code : String) : String := jsTrim code

/-- The timestamped copied-flag writes a run of the widget produces: each
successful copy at time c writes true at c and, through the timeout it
schedules, writes false at c + 2000; the handler never cancels a pending
timeout. -/
def timerEvents (copies : List Nat) : List (Nat × Bool) :=
  copies.map (fun c => (c, true)) ++ copies.map (fun c => (c + 2000, false))

/-- Insert an event into a time-sorted event list, keeping it sorted. -/
def insertByTime : Nat × Bool → List (Nat × Bool) → List (Nat × Bool)
  | e, [] => [e]
  | e, f :: rest => if e.1 ≤ f.1 then e :: f :: rest else f :: insertByTime e rest

/-- Sort events by their timestamp (insertion sort). -/
def sortByTime : List (Nat × Bool) → List (Nat × Bool)
  | [] => []
  | e :: rest => insertByTime e (sortByTime rest)

/-- The copied flag at time t for a run whose successful copies happen at
the given times: the value written by the last event at or before t,
false before any event. Only runs whose copy and revert instants are
pairwise distinct are considered (simultaneous events have no defined
order in the host's task queue). -/
def copiedAt (copies : List Nat) (t : Nat) : Bool :=
  ((sortByTime (timerEvents copies)).filter (fun e => e.1 ≤ t)).foldl
    (fun _ e => e.2) false

/-- One paragraph of the rendered attack-scenario block: its display text
and whether it is emphasized. -/
structure RenderedLine where
  text : String
  emphasized : Bool
deriving DecidableEq, Repr

/-- PatternPage (src/HomePage.tsx lines 394-400): a scenario line is
rendered only when its trimmed text is non-empty (JS truthiness of
line.trim()); the paragraph is emphasized when the raw line starts with
the two-asterisk marker, and its display text is the line with every
two-asterisk marker stripped. -/
def renderScenarioLine (line : String) : Option RenderedLine :=
  if jsTrim line == "" then none
  else some { text := jsStripStars line, emphasized := jsStartsWith line "**" }

/-- The attack-scenario block: the scenario split at newlines, each line
rendered by renderScenarioLine. -/
def renderAttackScenario (scenario : String) : List RenderedLine :=
  (jsSplitLines scenario).filterMap renderScenarioLine

/-- A home-page stat figure is either computed from the dataset or a
hardcoded display string (the value field of the stats array is a number
for the first entry and a string literal for the rest). -/
inductive StatValue where
  | computed (n : Nat)
  | literal (s : String)
deriving DecidableEq, Repr

/-- The stats array of HomePage (src/HomePage.tsx lines 8-13): label and
value of each stat tile, in order. -/
def stats : List (String × StatValue) :=
  [("Security Patterns", .computed securityPatterns.length),
   ("Vulnerability Types", .literal "6+"),
   ("Code Examples", .literal "12+"),
   ("Best Practices", .literal "30+")]

/-- List.find? returns none exactly when no element satisfies the predicate,
and otherwise the first satisfying element: the one at a position all of
whose predecessors fail the predicate. -/
theorem find?_characterization {α : Type} (p : α → Bool) (l : List α) :
    (l.find? p = none ∧ ∀ i : Fin l.length, p (l.get i) = false) ∨
    (∃ i : Fin l.length, l.find? p = some (l.get i) ∧ p (l.get i) = true ∧
      ∀ j : Fin l.length, (j : Nat) < (i : Nat) → p (l.get j) = false) := by
  induction l with
  | nil => exact Or.inl ⟨rfl, fun i => i.elim0⟩
  | cons a l ih =>
    cases hp : p a with
    | true =>
      refine Or.inr ⟨⟨0, Nat.succ_pos _⟩, ?_, hp, fun j hj => absurd hj (Nat.not_lt_zero _)⟩
      simp [List.find?, hp]
    | false =>
      rcases ih with ⟨h1, h2⟩ | ⟨i, h1, h2, h3⟩
      · refine Or.inl ⟨by simp [List.find?, hp, h1], fun i => ?_⟩
        match i with
        | ⟨0, _⟩ => exact hp
        | ⟨k + 1, hk⟩ => exact h2 ⟨k, Nat.lt_of_succ_lt_succ hk⟩
      · refine Or.inr ⟨⟨i.1 + 1, Nat.succ_lt_succ i.2⟩, ?_, h2, fun j hj => ?_⟩
        · simpa [List.find?, hp] using h1
        · match j, hj with
          | ⟨0, _⟩, _ => exact hp
          | ⟨k + 1, hk⟩, hj =>
            exact h3 ⟨k, Nat.lt_of_succ_lt_succ hk⟩ (Nat.lt_of_succ_lt_succ hj)

/-- C1: on the pattern detail page, for the record at position i of the
dataset order, the previous link targets exactly the record at position
i - 1 (absent for the first record) and the next link targets exactly the
record at position i + 1 (absent for the last record); there is no
wraparound. -/
theorem patternPage_prev_next_nav :
    ∀ i : Fin securityPatterns.length,
      prevPattern (securityPatterns.get i).id =
        (if (i : Nat) = 0 then none else securityPatterns.get? ((i : Nat) - 1)) ∧
      nextPattern (securityPatterns.get i).id = securityPatterns.get? ((i : Nat) + 1) := by
  intro i
  fin_cases i <;> exact ⟨rfl, rfl⟩

/-- C2: for every record of the securityPatterns dataset, getPatternById
applied to that record's id returns that exact record. -/
theorem getPatternById_roundtrip :
    ∀ i : Fin securityPatterns.length,
      getPatternById (securityPatterns.get i).id = some (securityPatterns.get i) := by
  intro i
  fin_cases i <;> rfl

/-- C3: getPatternById scans the dataset in order and returns the first
record whose id equals the input, and the explicit not-found outcome
(none, never an exception: the function is total) when no record's id
equals the input; in particular it returns none on "nonexistent-id". -/
theorem getPatternById_contract :
    (∀ id : String,
      (getPatternById id = none ∧
        ∀ i : Fin securityPatterns.length, (securityPatterns.get i).id ≠ id) ∨
      (∃ i : Fin securityPatterns.length,
        getPatternById id = some (securityPatterns.get i) ∧
        (securityPatterns.get i).id = id ∧
        ∀ j : Fin securityPatterns.length, (j : Nat) < (i : Nat) →
          (securityPatterns.get j).id ≠ id)) ∧
    getPatternById "nonexistent-id" = none := by
  constructor
  · intro id
    rcases find?_characterization (fun q => q.id == id) securityPatterns with
      ⟨h1, h2⟩ | ⟨i, h1, h2, h3⟩
    · refine Or.inl ⟨h1, fun i => ?_⟩
      simpa using h2 i
    · refine Or.inr ⟨i, h1, by simpa using h2, fun j hj => ?_⟩
      simpa using h3 j hj
  · rfl

/-- C4: the copy action always sends the literal, untrimmed code string to
the clipboard sink, while the highlighter receives the trimmed text; on the
spec's example string the two differ, and only the copied payload keeps the
surrounding whitespace. -/
theorem copy_sends_untrimmed_payload :
    (∀ (code : String) (writeOk copied : Bool),
      (handleCopy code writeOk copied).2.head? = some (CopyEffect.clipboardWrite code)) ∧
    highlightInput "  let x = 1;\n  " = "let x = 1;" ∧
    (handleCopy "  let x = 1;\n  " true false).2.head? =
      some (CopyEffect.clipboardWrite "  let x = 1;\n  ") ∧
    "  let x = 1;\n  " ≠ highlightInput "  let x = 1;\n  " := by
  refine ⟨fun code writeOk copied => ?_, by decide, by decide, by decide⟩
  cases writeOk <;> rfl

/-- C6: when the clipboard write fails, the copied flag keeps its value (in
particular it stays false when it was false, so the confirmation never
appears), the only emitted effect is the attempted clipboard write itself,
and no user-facing error and no retry is ever emitted. -/
theorem copy_failure_silent :
    ∀ (code : String) (copied : Bool),
      handleCopy code false copied = (copied, [CopyEffect.clipboardWrite code]) ∧
      (handleCopy code false false).1 = false ∧
      (∀ msg, CopyEffect.surfaceError msg ∉ (handleCopy code false copied).2) ∧
      CopyEffect.retryCopy ∉ (handleCopy code false copied).2 := by
  intro code copied
  refine ⟨rfl, rfl, fun msg => ?_, ?_⟩ <;> simp [handleCopy]

/-- C5 counterexample: copies at times 0 and 1000 (the second while the
indicator is still active); at time 2500, still within 2 seconds of the
most recent copy, the indicator is already gone, so the second copy did not
restart the 2-second window. -/
theorem copied_restart_counterexample :
    copiedAt [0, 1000] 2500 = false ∧ 1000 ≤ 2500 ∧ 2500 < 1000 + 2000 := by
  refine ⟨by decide, by decide, by decide⟩

set_option maxRecDepth 8000 in
/-- C5 amended: after a single successful copy at time c the indicator is
visible exactly from c until the fixed 2000 ms timeout elapses; a second
copy while the indicator is active does not cancel the pending timeout —
the timers stack and the earliest one wins, so for two overlapping copies
the indicator reverts 2000 ms after the FIRST copy, not the most recent. -/
theorem copied_window_stacked_timers :
    (∀ c t : Nat, copiedAt [c] t = decide (c ≤ t ∧ t < c + 2000)) ∧
    (∀ t0 t1 t : Nat, t0 < t1 → t1 < t0 + 2000 →
      copiedAt [t0, t1] t = decide (t0 ≤ t ∧ t < t0 + 2000)) := by
  constructor
  · intro c t
    have hsort : sortByTime (timerEvents [c]) = [(c, true), (c + 2000, false)] := by
      simp [timerEvents, sortByTime, insertByTime, Nat.le_add_right]
    rw [copiedAt, hsort]
    by_cases h2 : c + 2000 ≤ t
    · have h1 : c ≤ t := by omega
      simp [List.filter_cons, h1, h2]
    · by_cases h1 : c ≤ t
      · simp [List.filter_cons, h1, h2]
        omega
      · simp [List.filter_cons, h1, h2]
  · intro t0 t1 t hlt hoverlap
    have e1 : t0 + 2000 ≤ t1 + 2000 := by omega
    have e2 : t1 ≤ t0 + 2000 := by omega
    have e3 : t0 ≤ t1 := by omega
    have hsort : sortByTime (timerEvents [t0, t1]) =
        [(t0, true), (t1, true), (t0 + 2000, false), (t1 + 2000, false)] := by
      simp [timerEvents, sortByTime, insertByTime, e1, e2, e3]
    rw [copiedAt, hsort]
    by_cases h4 : t1 + 2000 ≤ t
    · have h3 : t0 + 2000 ≤ t := by omega
      have h2 : t1 ≤ t := by omega
      have h1 : t0 ≤ t := by omega
      simp [List.filter_cons, h1, h2, h3, h4]
    · by_cases h3 : t0 + 2000 ≤ t
      · have h2 : t1 ≤ t := by omega
        have h1 : t0 ≤ t := by omega
        simp [List.filter_cons, h1, h2, h3, h4]
      · by_cases h2 : t1 ≤ t
        · have h1 : t0 ≤ t := by omega
          simp [List.filter_cons, h1, h2, h3, h4]
          omega
        · by_cases h1 : t0 ≤ t
          · simp [List.filter_cons, h1, h2, h3, h4]
            omega
          · simp [List.filter_cons, h1, h2, h3, h4]

/-- C7: for every pattern of the dataset, every attack-scenario line whose
trimmed text begins with the two-asterisk marker is rendered emphasized with
the markers stripped before display, and every other non-empty line is
rendered as a plain paragraph. -/
theorem attackScenario_line_rendering :
    ∀ i : Fin securityPatterns.length,
      ∀ line ∈ jsSplitLines (securityPatterns.get i).attackScenario,
        jsTrim line ≠ "" →
          renderScenarioLine line =
            some { text := jsStripStars line,
                   emphasized := jsStartsWith (jsTrim line) "**" } := by
  intro i
  fin_cases i <;> decide

/-- C7 witness: the first non-empty scenario line of the first pattern is
emphasized and loses its markers. -/
theorem attackScenario_line_rendering_witness :
    renderScenarioLine "**Real-World Attack Scenario:**" =
      some { text := "Real-World Attack Scenario:", emphasized := true } :=
  attackScenario_line_rendering ⟨0, by decide⟩
    "**Real-World Attack Scenario:**" (by decide) (by decide)

/-- C8: the home page's pattern-count stat is the dataset's length, which is
6 for the authored dataset, while every other stat figure is a hardcoded
display string. -/
theorem homepage_pattern_count :
    stats.get? 0 = some ("Security Patterns", StatValue.computed securityPatterns.length) ∧
    securityPatterns.length = 6 ∧
    (∀ j : Fin stats.length, 1 ≤ (j : Nat) → ∃ s, (stats.get j).2 = StatValue.literal s) := by
  refine ⟨rfl, rfl, fun j hj => ?_⟩
  match j, hj with
  | ⟨1, _⟩, _ => exact ⟨"6+", rfl⟩
  | ⟨2, _⟩, _ => exact ⟨"12+", rfl⟩
  | ⟨3, _⟩, _ => exact ⟨"30+", rfl⟩

/-- C8 witness: the pattern-count stat evaluated on the authored dataset. -/
theorem homepage_pattern_count_witness :
    stats.get? 0 = some ("Security Patterns", StatValue.computed 6) :=
  homepage_pattern_count.1

/-- C9: the id field is unique across the authored dataset: the list of the
six record ids has no duplicate. -/
theorem pattern_ids_unique : (securityPatterns.map (fun p => p.id)).Nodup := by
  decide

/-- C10: every record of the authored dataset has severity critical (4
records) or high (2 records); none has severity medium, so on every record
both severity-to-style maps yield a style different from the style of their
medium branch, which the dataset therefore never exercises. -/
theorem severity_inventory :
    (securityPatterns.filter (fun p => p.severity == Severity.critical)).length = 4 ∧
    (securityPatterns.filter (fun p => p.severity == Severity.high)).length = 2 ∧
    (∀ i : Fin securityPatterns.length,
      (securityPatterns.get i).severity ≠ Severity.medium) ∧
    (∀ i : Fin securityPatterns.length,
      cardSeverityColors (securityPatterns.get i).severity ≠
        cardSeverityColors Severity.medium ∧
      pageSeverityColors (securityPatterns.get i).severity ≠
        pageSeverityColors Severity.medium) := by
  refine ⟨by decide, by decide, fun i => ?_, fun i => ?_⟩ <;> fin_cases i <;> decide
